import Mathlib

/-!
Verification of the CORVUS_py per-pixel phenology engine.

This file is a shallow embedding of the per-pixel computations of
`src/corvus_py/phenology_extraction/phenology_extraction.py` and
`src/corvus_py/phenology_extraction/cloud_temporal_filter.py`.

Modelling conventions:
* An Earth Engine image is, per pixel and per band, a possibly-masked
  rational number, embedded as `Option ℚ` (`none` = masked).
* Earth Engine arithmetic on images propagates masks (any masked operand
  yields a masked result); `unmask()` replaces masked pixels with 0;
  comparison operators (`gt`, `lt`, `eq`) return 1/0 indicator values and
  also propagate masks.  The `count` reducer over an image collection
  yields a masked pixel where no unmasked input exists.
* `ee.Number.divide` and image division return 0 on division by zero,
  matching Lean's convention for `ℚ`; every theorem below only exercises
  nonzero denominators or the explicit zero-yields-zero convention.
* Dates are rationals measured in days; the calendar is modelled with
  365-day years (all claims below are stated away from leap-day effects),
  so `advance(n, 'year')` is `+ 365 * n`, `ee.Date.fromYMD(y,1,1)` is day
  `365 * y`, and `ee.Date.fromYMD(y,12,31)` is day `365 * y + 364`.
* `ee.ImageCollection.filterDate(start, end)` keeps scenes with
  `start ≤ date < end` (start inclusive, end exclusive).
* `ee.List.sequence(a, b)` is inclusive of both endpoints.
-/

namespace EE

/-- Earth Engine image addition per pixel: masked if either operand is masked. -/
def add : Option ℚ → Option ℚ → Option ℚ
  | some x, some y => some (x + y)
  | _, _ => none

/-- Earth Engine image subtraction per pixel: masked if either operand is masked. -/
def sub : Option ℚ → Option ℚ → Option ℚ
  | some x, some y => some (x - y)
  | _, _ => none

/-- Earth Engine image multiplication per pixel: masked if either operand is masked. -/
def mul : Option ℚ → Option ℚ → Option ℚ
  | some x, some y => some (x * y)
  | _, _ => none

/-- Earth Engine `unmask()` with no argument: replaces a masked pixel with 0. -/
def unmask (a : Option ℚ) : Option ℚ := some (a.getD 0)

/-- Earth Engine `gt`: 1 where the first operand is strictly greater, else 0;
masked where either operand is masked. -/
def gtv : Option ℚ → Option ℚ → Option ℚ
  | some x, some y => some (if y < x then 1 else 0)
  | _, _ => none

/-- Earth Engine `lt`: 1 where the first operand is strictly smaller, else 0;
masked where either operand is masked. -/
def ltv : Option ℚ → Option ℚ → Option ℚ
  | some x, some y => some (if x < y then 1 else 0)
  | _, _ => none

/-- Earth Engine `eq(0)`: 1 where the pixel equals 0, else 0; masked pixels
stay masked. -/
def eq0 : Option ℚ → Option ℚ
  | some x => some (if x = 0 then 1 else 0)
  | none => none

end EE

/-- The `count()` reducer of the target band over the window: the pixel value
is the number `n` of images whose target band is unmasked there, and the
reducer output is itself masked when `n = 0`. -/
def eeCount (n : ℕ) : Option ℚ := if n = 0 then none else some (n : ℚ)

/-- Source `phenology_extraction.py:126`:
`regression_data.select(band_name).count().lt(3).unmask()`. -/
def tooLittleDataForLinearMask (n : ℕ) : Option ℚ :=
  EE.unmask (EE.ltv (eeCount n) (some 3))

/-- Source `phenology_extraction.py:127`:
`regression_data.select(band_name).count().lt(6).unmask()`. -/
def tooLittleDataForQuadraticMask (n : ℕ) : Option ℚ :=
  EE.unmask (EE.ltv (eeCount n) (some 6))

/-- Source `phenology_extraction.py:115-117`: the quadratic model evaluated at the
target time, `constant + time_coef * t + time_sq_coef * t * t`. -/
def quadraticPrediction (c0 c1 c2 targetTime : ℚ) : ℚ :=
  c0 + c1 * targetTime + c2 * targetTime * targetTime

/-- Source `phenology_extraction.py:118-119`: the linear model evaluated at the
target time, `constant + time_coef * t`. -/
def linearPrediction (c0 c1 targetTime : ℚ) : ℚ :=
  c0 + c1 * targetTime

/-- Source `phenology_extraction.py:132-135`: select the model by sample count.
`n` is the per-pixel count of unmasked target-band observations in the
window; `quadraticPred`, `linearPred` and `windowMedian` are the per-pixel
values of the two regression predictions and of
`window.select(band_name).median()`. -/
def modelPredictionFiltered (n : ℕ)
    (quadraticPred linearPred windowMedian : Option ℚ) : Option ℚ :=
  let tooQuad := tooLittleDataForQuadraticMask n
  let tooLin := tooLittleDataForLinearMask n
  let step1 := EE.add (EE.unmask (EE.mul quadraticPred (EE.eq0 tooQuad)))
                      (EE.mul tooQuad linearPred)
  EE.add (EE.unmask (EE.mul step1 (EE.eq0 tooLin)))
         (EE.mul tooLin windowMedian)

/-- Source `phenology_extraction.py:142`: `model_prediction_filtered.gt(max_value).unmask()`. -/
def tooHighMask (p maxValue : Option ℚ) : Option ℚ :=
  EE.unmask (EE.gtv p maxValue)

/-- Source `phenology_extraction.py:143`: `model_prediction_filtered.lt(min_value).unmask()`. -/
def tooLowMask (p minValue : Option ℚ) : Option ℚ :=
  EE.unmask (EE.ltv p minValue)

/-- Source `phenology_extraction.py:153`: prediction exceeds
`median + 1.5 * stdev` of the window. -/
def statisticalOutlierHigh (p median stdev : Option ℚ) : Option ℚ :=
  EE.unmask (EE.gtv p (EE.add median (EE.mul stdev (some (3/2)))))

/-- Source `phenology_extraction.py:154`: prediction is below
`median - 1.5 * stdev` of the window. -/
def statisticalOutlierLow (p median stdev : Option ℚ) : Option ℚ :=
  EE.unmask (EE.ltv p (EE.sub median (EE.mul stdev (some (3/2)))))

/-- Source `phenology_extraction.py:159`:
`too_high_mask.add(statistical_outlier_high).gt(0)`. -/
def badDataHigh (p maxValue median stdev : Option ℚ) : Option ℚ :=
  EE.gtv (EE.add (tooHighMask p maxValue) (statisticalOutlierHigh p median stdev))
         (some 0)

/-- Source `phenology_extraction.py:160`:
`too_low_mask.add(statistical_outlier_low).gt(0)`. -/
def badDataLow (p minValue median stdev : Option ℚ) : Option ℚ :=
  EE.gtv (EE.add (tooLowMask p minValue) (statisticalOutlierLow p median stdev))
         (some 0)

/-- Source `phenology_extraction.py:161-162`, with the source's exact parenthesisation:
```
mpf = (mpf.multiply(bad_data_high.eq(0))).unmask()
        .add(bad_data_high.multiply(neighborhood_median).add(neighborhood_stdev))
mpf = (mpf.multiply(bad_data_low.eq(0))).unmask()
        .add(bad_data_low.multiply(neighborhood_median).subtract(neighborhood_stdev))
```
Note that `neighborhood_stdev` is added (resp. subtracted) outside the
multiplication by the bad-data flag, hence unconditionally. -/
def rejectOutliers (p minValue maxValue median stdev : Option ℚ) : Option ℚ :=
  let bh := badDataHigh p maxValue median stdev
  let bl := badDataLow p minValue median stdev
  let step1 := EE.add (EE.unmask (EE.mul p (EE.eq0 bh)))
                      (EE.add (EE.mul bh median) stdev)
  EE.add (EE.unmask (EE.mul step1 (EE.eq0 bl)))
         (EE.sub (EE.mul bl median) stdev)

/-- Claim C2: the prediction entering the rejection stage is the quadratic
model at the target time when the window has `n ≥ 6` unmasked target-band
observations, the linear model when `3 ≤ n < 6`, and the window median when
`n < 3` (for `n = 0` every window reducer is masked and the prediction is
likewise masked, i.e. it still coincides with the masked window median). -/
theorem c2_model_selection (n : ℕ) (c0 c1 c2 d0 d1 t m : ℚ) :
    (6 ≤ n →
      modelPredictionFiltered n (some (quadraticPrediction c0 c1 c2 t))
        (some (linearPrediction d0 d1 t)) (some m)
        = some (quadraticPrediction c0 c1 c2 t)) ∧
    (3 ≤ n → n < 6 →
      modelPredictionFiltered n (some (quadraticPrediction c0 c1 c2 t))
        (some (linearPrediction d0 d1 t)) (some m)
        = some (linearPrediction d0 d1 t)) ∧
    (1 ≤ n → n < 3 →
      modelPredictionFiltered n (some (quadraticPrediction c0 c1 c2 t))
        (some (linearPrediction d0 d1 t)) (some m)
        = some m) ∧
    modelPredictionFiltered 0 none none none = none := by
  refine ⟨?_, ?_, ?_, ?_⟩
  · intro h6
    have hn : n ≠ 0 := by omega
    have h3' : ¬ ((n : ℚ) < 3) := by exact_mod_cast (by omega : ¬ (n < 3))
    have h6' : ¬ ((n : ℚ) < 6) := by exact_mod_cast (by omega : ¬ (n < 6))
    simp [modelPredictionFiltered, tooLittleDataForQuadraticMask,
      tooLittleDataForLinearMask, eeCount, hn, h3', h6',
      EE.add, EE.sub, EE.mul, EE.unmask, EE.ltv, EE.eq0]
  · intro h3 h6
    have hn : n ≠ 0 := by omega
    have h3' : ¬ ((n : ℚ) < 3) := by exact_mod_cast (by omega : ¬ (n < 3))
    have h6' : (n : ℚ) < 6 := by exact_mod_cast (by omega : n < 6)
    simp [modelPredictionFiltered, tooLittleDataForQuadraticMask,
      tooLittleDataForLinearMask, eeCount, hn, h3', h6',
      EE.add, EE.sub, EE.mul, EE.unmask, EE.ltv, EE.eq0]
  · intro h1 h3
    have hn : n ≠ 0 := by omega
    have h3' : (n : ℚ) < 3 := by exact_mod_cast (by omega : n < 3)
    have h6' : (n : ℚ) < 6 := by exact_mod_cast (by omega : n < 6)
    simp [modelPredictionFiltered, tooLittleDataForQuadraticMask,
      tooLittleDataForLinearMask, eeCount, hn, h3', h6',
      EE.add, EE.sub, EE.mul, EE.unmask, EE.ltv, EE.eq0]
  · simp [modelPredictionFiltered, tooLittleDataForQuadraticMask,
      tooLittleDataForLinearMask, eeCount,
      EE.add, EE.sub, EE.mul, EE.unmask, EE.ltv, EE.eq0]

/-- Witness for C2: with 7 observations the quadratic branch is selected. -/
theorem c2_witness :
    modelPredictionFiltered 7 (some (quadraticPrediction 1 2 3 10))
      (some (linearPrediction 4 5 10)) (some 20)
      = some (quadraticPrediction 1 2 3 10) :=
  (c2_model_selection 7 1 2 3 4 5 10 20).1 (by norm_num)

/-- Claim C1 counterexample: with `min_value = -1`, `max_value = 1`, window
median 0 and window stdev 1/10, a prediction of 2 is flagged high
(`badDataHigh = 1`), yet the emitted value is the bare median 0, not
`median + stdev = 1/10`: the claim's high-replacement formula does not hold. -/
theorem c1_counterexample :
    badDataHigh (some 2) (some 1) (some 0) (some (1/10)) = some 1 ∧
    rejectOutliers (some 2) (some (-1)) (some 1) (some 0) (some (1/10)) = some 0 ∧
    ((some ((0 : ℚ) + 1/10) : Option ℚ) == some (0 : ℚ)) = false := by
  refine ⟨?_, ?_, ?_⟩
  · norm_num [badDataHigh, tooHighMask, statisticalOutlierHigh,
      EE.gtv, EE.add, EE.mul, EE.unmask]
  · norm_num [rejectOutliers, badDataHigh, badDataLow, tooHighMask, tooLowMask,
      statisticalOutlierHigh, statisticalOutlierLow,
      EE.gtv, EE.ltv, EE.add, EE.sub, EE.mul, EE.unmask, EE.eq0]
  · rw [beq_eq_false_iff_ne]
    norm_num

/-- Claim C1 (amended): the low replacement is as claimed, but the high
replacement is not.  Whenever the prediction is flagged high and not low,
the emitted value is exactly the window median (the stdev added
unconditionally in the high-replacement line is cancelled by the stdev
subtracted unconditionally in the low-replacement line); whenever it is
flagged low, the emitted value is exactly `median - stdev`. -/
theorem c1_amended (p minV maxV m s : ℚ) :
    (badDataHigh (some p) (some maxV) (some m) (some s) = some 1 →
     badDataLow (some p) (some minV) (some m) (some s) = some 0 →
     rejectOutliers (some p) (some minV) (some maxV) (some m) (some s) = some m) ∧
    (badDataLow (some p) (some minV) (some m) (some s) = some 1 →
     rejectOutliers (some p) (some minV) (some maxV) (some m) (some s)
       = some (m - s)) := by
  constructor
  · intro hbh hbl
    unfold rejectOutliers
    rw [hbh, hbl]
    simp [EE.add, EE.sub, EE.mul, EE.unmask, EE.eq0]
  · intro hbl
    have hbh : ∃ b, badDataHigh (some p) (some maxV) (some m) (some s) = some b := by
      simp [badDataHigh, tooHighMask, statisticalOutlierHigh,
        EE.gtv, EE.add, EE.mul, EE.unmask]
    obtain ⟨b, hb⟩ := hbh
    unfold rejectOutliers
    rw [hb, hbl]
    rcases eq_or_ne b 0 with h0 | h0 <;>
      simp [EE.add, EE.sub, EE.mul, EE.unmask, EE.eq0, h0]

/-- Witness for C1 (amended): a prediction of -2 with default NDVI bounds is
flagged low and is replaced with `median - stdev = -1/10`. -/
theorem c1_witness :
    rejectOutliers (some (-2)) (some (-1)) (some 1) (some 0) (some (1/10))
      = some (0 - 1/10) :=
  (c1_amended (-2) (-1) 1 0 (1/10)).2 (by
    norm_num [badDataLow, tooLowMask, statisticalOutlierLow,
      EE.gtv, EE.ltv, EE.add, EE.sub, EE.mul, EE.unmask])

/-- Claim C9: when the prediction is flagged neither high nor low (it lies
within `[min_value, max_value]` and within 1.5 stdev of the window median),
the rejection stage returns it exactly unchanged: the stdev added
unconditionally in the high-replacement line is cancelled exactly by the
stdev subtracted unconditionally in the low-replacement line. -/
theorem c9_frame_preservation (p minV maxV m s : ℚ)
    (h1 : minV ≤ p) (h2 : p ≤ maxV)
    (h3 : m - s * (3/2) ≤ p) (h4 : p ≤ m + s * (3/2)) :
    rejectOutliers (some p) (some minV) (some maxV) (some m) (some s) = some p := by
  have hh : ¬ (maxV < p) := not_lt.mpr h2
  have hl : ¬ (p < minV) := not_lt.mpr h1
  have hoh : ¬ (m + s * (3/2) < p) := not_lt.mpr h4
  have hol : ¬ (p < m - s * (3/2)) := not_lt.mpr h3
  simp [rejectOutliers, badDataHigh, badDataLow, tooHighMask, tooLowMask,
    statisticalOutlierHigh, statisticalOutlierLow,
    EE.add, EE.sub, EE.mul, EE.unmask, EE.gtv, EE.ltv, EE.eq0,
    hh, hl, hoh, hol]

/-- Witness for C9: an in-bounds, statistically unremarkable prediction of
1/2 passes through the rejection stage unchanged. -/
theorem c9_witness :
    rejectOutliers (some (1/2)) (some (-1)) (some 1) (some (2/5)) (some (1/5))
      = some (1/2) :=
  c9_frame_preservation (1/2) (-1) 1 (2/5) (1/5)
    (by norm_num) (by norm_num) (by norm_num) (by norm_num)

/-- One scene of the (already `select(['time', band_name])`-ed) input
collection, per pixel: its acquisition date (`system:time_start`, in days),
its `time` band (fractional years, per `phenology_extraction.py:45-46`),
and the target band's value and validity mask at the pixel. -/
structure Img where
  date : ℚ
  time : ℚ
  value : ℚ
  valid : Bool
deriving DecidableEq

/-- Source `ee.ImageCollection.filterDate(start, end)`: keeps scenes acquired at
`start ≤ date < end` (start inclusive, end exclusive). -/
def filterDate (startDate endDate : ℚ) (c : List Img) : List Img :=
  c.filter (fun img => decide (startDate ≤ img.date) && decide (img.date < endDate))

/-- The calendar year holding day `d` (365-day-year model). -/
def yearOf (d : ℚ) : ℤ := ⌊d / 365⌋

/-- Source `ee.Date.fromYMD(target_year, 1, 1)`: January 1 of the year holding `d`. -/
def yearStartDate (d : ℚ) : ℚ := 365 * (yearOf d : ℚ)

/-- Source `ee.Date.fromYMD(target_year, 12, 31)`: December 31 of the year holding `d`. -/
def yearEndDate (d : ℚ) : ℚ := 365 * (yearOf d : ℚ) + 364

/-- Source `date.advance(n, 'year')` in the 365-day-year model. -/
def advanceYear (d n : ℚ) : ℚ := d + 365 * n

/-- Source `phenology_extraction.py:61-62`: keep the band value, shift the `time`
band up by one year. -/
def addYear (img : Img) : Img := { img with time := img.time + 1 }

/-- Source `phenology_extraction.py:63-64`: keep the band value, shift the `time`
band down by one year. -/
def subtractYear (img : Img) : Img := { img with time := img.time - 1 }

/-- Source `phenology_extraction.py:50-76`: the temporal window of reference scenes
assembled by `get_window_fit` for a target date, merging the advance and
following windows and, when `wrap_data` is set, the two year-wrapped
windows with their `time` band shifted by one year. -/
def getWindow (inputCollection : List Img)
    (advanceWindowWidth followingWindowWidth targetDate : ℚ)
    (wrapData : Bool) : List Img :=
  let advanceWindow := filterDate (targetDate - advanceWindowWidth) targetDate inputCollection
  let followingWindow := filterDate targetDate (targetDate + followingWindowWidth) inputCollection
  let followingWindowWrapped :=
    (filterDate (yearStartDate targetDate)
                (advanceYear targetDate (-1) + followingWindowWidth) inputCollection).map addYear
  let advanceWindowWrapped :=
    (filterDate (advanceYear targetDate 1 - advanceWindowWidth)
                (yearEndDate targetDate) inputCollection).map subtractYear
  if wrapData then
    advanceWindow ++ followingWindow ++ advanceWindowWrapped ++ followingWindowWrapped
  else
    advanceWindow ++ followingWindow

/-- Source `phenology_extraction.py:80-82`: the all-masked, zero-valued image
`collection_median.multiply(ee.Image(0.0)).mask(ee.Image(0))`, cast to the
collection's `['time', band_name]` band schema. -/
def sentinelImage : Img := ⟨0, 0, 0, false⟩

/-- Source `phenology_extraction.py:80-82`: unconditionally merge the sentinel
image into the window so the window is never empty. -/
def augmentWindow (window : List Img) : List Img := window ++ [sentinelImage]

/-- Source `ee.Number.divide`, which is defined to return 0 on division by zero. -/
def eeDivide (a b : ℚ) : ℚ := if b = 0 then 0 else a / b

/-- Source `phenology_extraction.py:21`:
`(max_date.difference(min_date, 'day')).divide(num_time_steps).floor()`. -/
def timingInterval (minDate maxDate : ℚ) (numTimeSteps : ℕ) : ℤ :=
  ⌊eeDivide (maxDate - minDate) (numTimeSteps : ℚ)⌋

/-- Source `phenology_extraction.py:22-24`: the list of target dates
`ee.List.sequence(0, num_time_steps).map(sampleDate)`, where
`sampleDate(i) = min_date.advance(i * timing_interval, 'day')`.
`ee.List.sequence` is inclusive of both endpoints, so this has
`num_time_steps + 1` entries. -/
def targetDates (minDate maxDate : ℚ) (numTimeSteps : ℕ) : List ℚ :=
  (List.range (numTimeSteps + 1)).map
    (fun (i : ℕ) => minDate + (i : ℚ) * (timingInterval minDate maxDate numTimeSteps : ℚ))

/-- Source `phenology_extraction.py:16-35`: `fit_phenology` maps `get_window_fit`
over the target dates, producing one output record per target date; here
each record is represented by the (sentinel-augmented) window it is fitted
on.  There is no parameter validation anywhere in the function. -/
def fitPhenologyWindows (inputCollection : List Img)
    (advanceWindowWidth followingWindowWidth : ℚ) (numTimeSteps : ℕ)
    (minDate maxDate : ℚ) (wrapData : Bool) : List (List Img) :=
  (targetDates minDate maxDate numTimeSteps).map
    (fun t => augmentWindow
      (getWindow inputCollection advanceWindowWidth followingWindowWidth t wrapData))

/-- Helper: `fit_phenology` always emits `num_time_steps + 1` records. -/
lemma fitPhenologyWindows_length (inputCollection : List Img)
    (advanceWindowWidth followingWindowWidth : ℚ) (numTimeSteps : ℕ)
    (minDate maxDate : ℚ) (wrapData : Bool) :
    (fitPhenologyWindows inputCollection advanceWindowWidth followingWindowWidth
      numTimeSteps minDate maxDate wrapData).length = numTimeSteps + 1 := by
  unfold fitPhenologyWindows targetDates
  rw [List.length_map, List.length_map, List.length_range]

/-- Claim C3 evaluation at the failing input: with `num_time_steps = 12`
the returned collection contains 13 records, not 12, because
`ee.List.sequence(0, num_time_steps)` includes both endpoints, contradicting
the claim and the source's own comment `Contains NUM_TIME_STEPS images`. -/
theorem c3_extra_record :
    (fitPhenologyWindows [] 30 30 12 0 365 false).length = 13 := by
  rw [fitPhenologyWindows_length]

/-- Claim C6 counterexample: `filterDate` is end-exclusive, so a scene
acquired exactly at `target + lookahead` (here 130 = 100 + 30) is NOT in
the window, although it lies in the closed interval
`[target - lookback, target + lookahead]` the claim asserts. -/
theorem c6_counterexample :
    getWindow [⟨130, 1, 1/2, true⟩] 30 30 100 false = [] := by
  norm_num [getWindow, filterDate, List.filter]

/-- Claim C6 (amended): the window contains exactly the scenes whose
acquisition date lies in the half-open interval
`[target - lookback, target + lookahead)`; with `wrap_data = true` it
additionally contains, `time`-shifted down one year, the scenes dated in
`[target + 1yr - lookback, Dec 31 of the target year)` and, `time`-shifted
up one year, the scenes dated in `[Jan 1 of the target year,
target - 1yr + lookahead)`; with `wrap_data = false` those wrapped scenes
are excluded. -/
theorem c6_amended (c : List Img) (a f t : ℚ) (ha : 0 ≤ a) (hf : 0 ≤ f) (x : Img) :
    (x ∈ getWindow c a f t false ↔
      x ∈ c ∧ t - a ≤ x.date ∧ x.date < t + f) ∧
    (x ∈ getWindow c a f t true ↔
      (x ∈ c ∧ t - a ≤ x.date ∧ x.date < t + f) ∨
      (∃ y, y ∈ c ∧ t + 365 - a ≤ y.date ∧ y.date < yearEndDate t ∧
        subtractYear y = x) ∨
      (∃ y, y ∈ c ∧ yearStartDate t ≤ y.date ∧ y.date < t - 365 + f ∧
        addYear y = x)) := by
  have hsplit : ∀ d : ℚ, ((t - a ≤ d ∧ d < t) ∨ (t ≤ d ∧ d < t + f)) ↔
      (t - a ≤ d ∧ d < t + f) := by
    intro d
    constructor
    · rintro (⟨h1, h2⟩ | ⟨h1, h2⟩)
      · exact ⟨h1, by linarith⟩
      · exact ⟨by linarith, h2⟩
    · rintro ⟨h1, h2⟩
      rcases lt_or_le d t with h | h
      · exact Or.inl ⟨h1, h⟩
      · exact Or.inr ⟨h, h2⟩
  constructor
  · show x ∈ filterDate (t - a) t c ++ filterDate t (t + f) c ↔ _
    simp only [List.mem_append, filterDate, List.mem_filter, Bool.and_eq_true,
      decide_eq_true_eq]
    rw [← and_or_left, hsplit x.date]
  · show x ∈ filterDate (t - a) t c ++ filterDate t (t + f) c
        ++ (filterDate (advanceYear t 1 - a) (yearEndDate t) c).map subtractYear
        ++ (filterDate (yearStartDate t) (advanceYear t (-1) + f) c).map addYear ↔ _
    simp only [List.mem_append, filterDate, List.mem_filter, List.mem_map,
      Bool.and_eq_true, decide_eq_true_eq, advanceYear]
    constructor
    · rintro (((⟨hx, h1, h2⟩ | ⟨hx, h1, h2⟩) | ⟨y, ⟨hy, h1, h2⟩, hxy⟩) | ⟨y, ⟨hy, h1, h2⟩, hxy⟩)
      · exact Or.inl ⟨hx, h1, by linarith⟩
      · exact Or.inl ⟨hx, by linarith, h2⟩
      · exact Or.inr (Or.inl ⟨y, hy, by linarith, h2, hxy⟩)
      · exact Or.inr (Or.inr ⟨y, hy, h1, by linarith, hxy⟩)
    · rintro (⟨hx, h1, h2⟩ | ⟨y, hy, h1, h2, hxy⟩ | ⟨y, hy, h1, h2, hxy⟩)
      · rcases lt_or_le x.date t with h | h
        · exact Or.inl (Or.inl (Or.inl ⟨hx, h1, h⟩))
        · exact Or.inl (Or.inl (Or.inr ⟨hx, h, h2⟩))
      · exact Or.inl (Or.inr ⟨y, ⟨hy, by linarith, h2⟩, hxy⟩)
      · exact Or.inr ⟨y, ⟨hy, h1, by linarith⟩, hxy⟩

/-- Witness for C6 (amended): for a target at day 360 (near year end), a scene
from early January (day 5) enters the wrapped window with its `time` band
shifted up by one year. -/
theorem c6_witness :
    addYear ⟨5, 0, 1/2, true⟩ ∈ getWindow [⟨5, 0, 1/2, true⟩] 30 30 360 true := by
  have h0 : yearOf 360 = 0 := by
    rw [yearOf, Int.floor_eq_zero_iff]
    constructor <;> norm_num
  refine ((c6_amended [⟨5, 0, 1/2, true⟩] 30 30 360 (by norm_num) (by norm_num)
    (addYear ⟨5, 0, 1/2, true⟩)).2).mpr ?_
  refine Or.inr (Or.inr ⟨⟨5, 0, 1/2, true⟩, List.mem_singleton.mpr rfl, ?_, ?_, rfl⟩)
  · rw [yearStartDate, h0]
    norm_num
  · norm_num

/-- Claim C7: for every input collection, window widths, target date and
wrap flag, the window entering the regression and reduction stages is
non-empty: it always contains the all-masked, zero-valued sentinel image
(with the collection's `['time', band_name]` schema), so no reducer ever
runs on an empty set. -/
theorem c7_sentinel_injection (inputCollection : List Img)
    (advanceWindowWidth followingWindowWidth targetDate : ℚ) (wrapData : Bool) :
    0 < (augmentWindow (getWindow inputCollection advanceWindowWidth
          followingWindowWidth targetDate wrapData)).length ∧
    sentinelImage ∈ augmentWindow (getWindow inputCollection advanceWindowWidth
          followingWindowWidth targetDate wrapData) ∧
    sentinelImage.value = 0 ∧ sentinelImage.time = 0 ∧
    sentinelImage.valid = false := by
  refine ⟨?_, ?_, rfl, rfl, rfl⟩
  · simp [augmentWindow]
  · simp [augmentWindow]

/-- Claim C8 counterexample: `fit_phenology` performs no validation at all.
At `num_time_steps = 0` (with `min_date = 0`, `max_date = 365`) the
computation proceeds (Earth Engine division by zero returns 0, so the
timing interval is 0) and emits one ordinary record at `min_date`, instead
of reporting a configuration error before per-pixel work. -/
theorem c8_counterexample :
    (fitPhenologyWindows [] 30 30 0 0 365 false).length = 1 ∧
    targetDates 0 365 0 = [0] := by
  constructor
  · rw [fitPhenologyWindows_length]
  · norm_num [targetDates, List.range_succ]

/-- Claim C8 (amended): `fit_phenology` contains no parameter validation
and never reports a configuration error: for every input, including
`num_time_steps = 0` and `max_date ≤ min_date`, it proceeds to emit
`num_time_steps + 1` per-target records; at `num_time_steps = 0` the single
target date is `min_date` itself (division by zero yields 0 in Earth
Engine, so the timing interval is 0). -/
theorem c8_amended (inputCollection : List Img)
    (advanceWindowWidth followingWindowWidth : ℚ) (numTimeSteps : ℕ)
    (minDate maxDate : ℚ) (wrapData : Bool) :
    (fitPhenologyWindows inputCollection advanceWindowWidth followingWindowWidth
      numTimeSteps minDate maxDate wrapData).length = numTimeSteps + 1 ∧
    targetDates minDate maxDate 0 = [minDate] := by
  constructor
  · exact fitPhenologyWindows_length ..
  · simp [targetDates, timingInterval, eeDivide, List.range_succ]

/-- One scene of the cloud-filter input, per pixel: the target band's value,
the `DOY` band, and the target band's validity mask at the pixel
(`cloud_temporal_filter.py` works on `select([band_name, 'DOY'])`). -/
structure PhenoObs where
  value : ℚ
  doy : ℚ
  valid : Bool
deriving DecidableEq

/-- A carried `[band_name, 'DOY']` image of the neighbor scan (the carried
images - the sentinels and the blended valid scenes - are unmasked). -/
structure NeighborScene where
  value : ℚ
  doy : ℚ
deriving DecidableEq

/-- Source `cloud_temporal_filter.py:32-40`: the first `num_padding_scenes` scenes
(by `system:time_start`), with `DOY` shifted up by 365, to be folded onto
the end of the series.  The input list is assumed time-sorted. -/
def bufferStartScenes (xs : List PhenoObs) (p : ℕ) : List PhenoObs :=
  (xs.take p).map (fun o => { o with doy := o.doy + 365 })

/-- Source `cloud_temporal_filter.py:43-51`: the last `num_padding_scenes` scenes,
with `DOY` shifted down by 365, to be folded onto the start of the series. -/
def bufferEndScenes (xs : List PhenoObs) (p : ℕ) : List PhenoObs :=
  (xs.drop (xs.length - p)).map (fun o => { o with doy := o.doy - 365 })

/-- Source `cloud_temporal_filter.py:57-59`: the circularly buffered series
`last_few_scenes.merge(pheno_in.merge(first_few_scenes)).sort(...)`;
after the `system:time_start` sort the down-shifted copies come first and
the up-shifted copies last. -/
def phenoBuffered (xs : List PhenoObs) (p : ℕ) : List PhenoObs :=
  bufferEndScenes xs p ++ xs ++ bufferStartScenes xs p

/-- Source `cloud_temporal_filter.py:69-77`: one step of the `iterate` fold.
Appends the current scene where it is unmasked, blended with the previous
carried value (`running_list.get(-1)`) where it is masked.  The running
list is seeded non-empty, so `getLastD`'s default is never consulted. -/
def getPreviousUnmaskedScene (runningList : List NeighborScene)
    (image : PhenoObs) : List NeighborScene :=
  let previous := runningList.getLastD ⟨0, 0⟩
  runningList ++ [if image.valid then ⟨image.value, image.doy⟩ else previous]

/-- Source `cloud_temporal_filter.py:79-89`: the per-index previous-valid-neighbor
list.  The full fold output (seeded with the `first` sentinel, value 0 /
DOY 0) has length `1 + buffered size`; `indices_to_retain` runs from
`num_padding_scenes + 1` to `size - num_padding_scenes - 1` and each is
fetched at `ind - 1`, so original index `i` reads slot `p + i`. -/
def previousUnmaskedScene (xs : List PhenoObs) (p : ℕ) : List NeighborScene :=
  (List.range xs.length).map
    (fun i => ((phenoBuffered xs p).foldl getPreviousUnmaskedScene [⟨0, 0⟩]).getD
      (p + i) ⟨0, 0⟩)

/-- Source `cloud_temporal_filter.py:92-100`: the per-index next-valid-neighbor
list: the same fold over the time-descending (reversed) buffered series,
seeded with the `last` sentinel (value 0 / DOY 365); each retained index is
fetched at the negative offset `-ind - 1`, i.e. at slot
`size + (-ind - 1) = xs.length + p - 1 - i` for original index `i`. -/
def nextUnmaskedScene (xs : List PhenoObs) (p : ℕ) : List NeighborScene :=
  (List.range xs.length).map
    (fun i => (((phenoBuffered xs p).reverse).foldl getPreviousUnmaskedScene
      [⟨0, 365⟩]).getD (xs.length + p - 1 - i) ⟨0, 365⟩)

/-- Turns the result of a neighbor search into a carried scene: the found
observation's `[value, DOY]`, or the given sentinel if none was found. -/
def carryOfFind (c : NeighborScene) : Option PhenoObs → NeighborScene
  | some o => ⟨o.value, o.doy⟩
  | none => c

/-- Specification-side description (from the claim's words): the nearest
valid (unmasked) observation strictly before index `k` of the series, or
the `first` sentinel (value 0, DOY 0) if no valid observation precedes. -/
def nearestValidBefore (ys : List PhenoObs) (k : ℕ) : NeighborScene :=
  carryOfFind ⟨0, 0⟩ (((ys.take k).reverse).find? (fun o => o.valid))

/-- Specification-side description (from the claim's words): the nearest
valid (unmasked) observation strictly after index `k` of the series, or
the `last` sentinel (value 0, DOY 365) if no valid observation follows. -/
def nearestValidAfter (ys : List PhenoObs) (k : ℕ) : NeighborScene :=
  carryOfFind ⟨0, 365⟩ ((ys.drop (k + 1)).find? (fun o => o.valid))

/-- Source `cloud_temporal_filter.py:122-131`: the residual of `check_value`:
slope between the previous and next neighbor scenes, straight-line
expectation at the current scene's DOY, and
`difference = current - expected`. -/
def checkValueDifference (previousScene nextScene currentScene : NeighborScene) : ℚ :=
  let slope := (nextScene.value - previousScene.value) / (nextScene.doy - previousScene.doy)
  let expectedValue := (currentScene.doy - previousScene.doy) * slope + previousScene.value
  currentScene.value - expectedValue

/-- Source `cloud_temporal_filter.py:132-134`: the `allowed` flag of `check_value`:
`threshold_low.lt(difference)` times `threshold_high.gt(difference)`, i.e.
kept only where `threshold_low < difference < threshold_high` strictly. -/
def checkValueAllowed (thresholdLow thresholdHigh : ℚ)
    (previousScene nextScene currentScene : NeighborScene) : Bool :=
  decide (thresholdLow < checkValueDifference previousScene nextScene currentScene)
    && decide (checkValueDifference previousScene nextScene currentScene < thresholdHigh)

/-- Source `cloud_temporal_filter.py:116-145`: whether original index `i` of the
series survives the filter: `current_scene.updateMask(allowed)` keeps the
pixel only where the scene was already valid AND the residual is allowed,
with the neighbors retrieved from the forward and backward scans. -/
def cloudFilterKept (thresholdLow thresholdHigh : ℚ)
    (xs : List PhenoObs) (p i : ℕ) : Bool :=
  let previousScene := (previousUnmaskedScene xs p).getD i ⟨0, 0⟩
  let nextScene := (nextUnmaskedScene xs p).getD i ⟨0, 365⟩
  let current := xs.getD i ⟨0, 0, false⟩
  current.valid &&
    checkValueAllowed thresholdLow thresholdHigh previousScene nextScene
      ⟨current.value, current.doy⟩

/-- Proof helper: the tail of the fold output, written as a direct
recursion carrying the last valid scene. -/
def carryScan (c : NeighborScene) : List PhenoObs → List NeighborScene
  | [] => []
  | o :: ys =>
      (if o.valid then ⟨o.value, o.doy⟩ else c)
        :: carryScan (if o.valid then ⟨o.value, o.doy⟩ else c) ys

/-- The `iterate` fold is the accumulator followed by `carryScan` seeded
with the accumulator's last element. -/
lemma foldl_getPreviousUnmaskedScene (ys : List PhenoObs) :
    ∀ acc : List NeighborScene,
      ys.foldl getPreviousUnmaskedScene acc
        = acc ++ carryScan (acc.getLastD ⟨0, 0⟩) ys := by
  induction ys with
  | nil => intro acc; simp [carryScan]
  | cons o ys ih =>
      intro acc
      rw [List.foldl_cons, ih]
      unfold getPreviousUnmaskedScene
      rw [List.getLastD_concat]
      simp only [carryScan, List.append_assoc, List.singleton_append]

/-- Element `m` of the seeded scan output is the most recent valid scene
among the first `m` inputs, or the seed if none of them is valid. -/
lemma carryScan_getD (d : NeighborScene) :
    ∀ (ys : List PhenoObs) (c : NeighborScene) (m : ℕ), m ≤ ys.length →
      (c :: carryScan c ys).getD m d
        = carryOfFind c (((ys.take m).reverse).find? (fun o => o.valid)) := by
  intro ys
  induction ys with
  | nil =>
      intro c m hm
      have hm0 : m = 0 := by simpa using hm
      subst hm0
      simp [carryScan, carryOfFind]
  | cons o ys ih =>
      intro c m hm
      match m with
      | 0 => simp [carryOfFind]
      | Nat.succ k =>
          rw [show ((o :: ys).take (k + 1)).reverse = (ys.take k).reverse ++ [o] by
            simp [List.take_succ_cons]]
          rw [List.find?_append]
          have hk : k ≤ ys.length := by simpa using hm
          have lhs : (c :: carryScan c (o :: ys)).getD (k + 1) d
              = ((if o.valid then (⟨o.value, o.doy⟩ : NeighborScene) else c)
                  :: carryScan (if o.valid then ⟨o.value, o.doy⟩ else c) ys).getD k d := by
            simp [carryScan]
          rw [lhs, ih _ k hk]
          rcases hfind : ((ys.take k).reverse).find? (fun o => o.valid) with _ | o0
          · by_cases hv : o.valid <;>
              simp [carryOfFind, Option.or, hfind, hv, List.find?_cons]
          · simp [carryOfFind, Option.or, hfind]

/-- Reversing a prefix of the reversal gives a suffix. -/
lemma reverse_take_reverse {α : Type} (l : List α) :
    ∀ m : ℕ, m ≤ l.length → (l.reverse.take m).reverse = l.drop (l.length - m) := by
  induction l using List.reverseRecOn with
  | nil => intro m hm; simp
  | append_singleton l a ih =>
      intro m hm
      match m with
      | 0 => simp
      | Nat.succ k =>
          have hk : k ≤ l.length := by simpa using hm
          have h1 : (l ++ [a]).reverse.take (k + 1) = a :: l.reverse.take k := by
            simp [List.take_succ_cons]
          rw [h1]
          have h2 : (l ++ [a]).length - (k + 1) = l.length - k := by
            simp
          rw [h2]
          rw [List.reverse_cons]
          rw [ih k hk]
          rw [List.drop_append_of_le_length (by omega)]

/-- With `num_padding_scenes ≤` the series length, the buffered series has
`2 * num_padding_scenes` extra entries. -/
lemma phenoBuffered_length (xs : List PhenoObs) (p : ℕ) (hp : p ≤ xs.length) :
    (phenoBuffered xs p).length = xs.length + 2 * p := by
  simp [phenoBuffered, bufferStartScenes, bufferEndScenes]
  omega

/-- Indexing a map over `List.range`. -/
lemma getD_map_range {β : Type} (f : ℕ → β) (N i : ℕ) (h : i < N) (d : β) :
    ((List.range N).map f).getD i d = f i := by
  rw [List.getD_eq_getElem?_getD, List.getElem?_map, List.getElem?_range h]
  rfl

/-- Claim C5: for every time-sorted series, padding depth (at most the
series length, as the source's index bookkeeping assumes) and original
index `i`, the scan records as previous neighbor the nearest valid
observation strictly before position `p + i` of the circularly buffered
series (sentinel value 0 / DOY 0 if none), and as next neighbor the
nearest valid observation strictly after that position (sentinel value 0 /
DOY 365 if none). -/
theorem c5_neighbor_scan (xs : List PhenoObs) (p i : ℕ)
    (hp : p ≤ xs.length) (h : i < xs.length) :
    (previousUnmaskedScene xs p).getD i ⟨0, 0⟩
      = nearestValidBefore (phenoBuffered xs p) (p + i) ∧
    (nextUnmaskedScene xs p).getD i ⟨0, 365⟩
      = nearestValidAfter (phenoBuffered xs p) (p + i) := by
  have hBlen : (phenoBuffered xs p).length = xs.length + 2 * p :=
    phenoBuffered_length xs p hp
  constructor
  · rw [previousUnmaskedScene, getD_map_range _ _ _ h]
    rw [foldl_getPreviousUnmaskedScene]
    show ((⟨0, 0⟩ : NeighborScene) :: carryScan ⟨0, 0⟩ (phenoBuffered xs p)).getD
        (p + i) ⟨0, 0⟩ = _
    rw [carryScan_getD ⟨0, 0⟩ (phenoBuffered xs p) ⟨0, 0⟩ (p + i) (by omega)]
    rfl
  · rw [nextUnmaskedScene, getD_map_range _ _ _ h]
    rw [foldl_getPreviousUnmaskedScene]
    show ((⟨0, 365⟩ : NeighborScene)
        :: carryScan ⟨0, 365⟩ ((phenoBuffered xs p).reverse)).getD
        (xs.length + p - 1 - i) ⟨0, 365⟩ = _
    rw [carryScan_getD ⟨0, 365⟩ ((phenoBuffered xs p).reverse) ⟨0, 365⟩
      (xs.length + p - 1 - i) (by rw [List.length_reverse, hBlen]; omega)]
    rw [reverse_take_reverse (phenoBuffered xs p) (xs.length + p - 1 - i)
      (by rw [hBlen]; omega)]
    rw [hBlen]
    have harith : xs.length + 2 * p - (xs.length + p - 1 - i) = p + i + 1 := by
      omega
    rw [harith]
    rfl

/-- Witness for C5: on a concrete three-scene series whose middle scene is
the only valid one, the scan's neighbor records for index 2 match the
nearest-valid characterization. -/
theorem c5_witness :
    (previousUnmaskedScene [⟨1, 10, false⟩, ⟨2, 20, true⟩, ⟨3, 30, false⟩] 0).getD 2 ⟨0, 0⟩
      = nearestValidBefore (phenoBuffered [⟨1, 10, false⟩, ⟨2, 20, true⟩, ⟨3, 30, false⟩] 0) 2 ∧
    (nextUnmaskedScene [⟨1, 10, false⟩, ⟨2, 20, true⟩, ⟨3, 30, false⟩] 0).getD 2 ⟨0, 365⟩
      = nearestValidAfter (phenoBuffered [⟨1, 10, false⟩, ⟨2, 20, true⟩, ⟨3, 30, false⟩] 0) 2 :=
  c5_neighbor_scan [⟨1, 10, false⟩, ⟨2, 20, true⟩, ⟨3, 30, false⟩] 0 2
    (by norm_num) (by norm_num)

/-- Claim C4 counterexample: a residual exactly equal to `threshold_high`
lies inside the closed band `[threshold_low, threshold_high]` the claim
asserts is kept, yet `check_value` masks it: with neighbors of value 0 at
DOY 0 and 10 and a current value 5 at DOY 5, the residual is 5, and with
thresholds `[-1, 5]` the point is not allowed. -/
theorem c4_counterexample :
    checkValueDifference ⟨0, 0⟩ ⟨0, 10⟩ ⟨5, 5⟩ = 5 ∧
    checkValueAllowed (-1) 5 ⟨0, 0⟩ ⟨0, 10⟩ ⟨5, 5⟩ = false ∧
    ((-1 : ℚ) ≤ 5 ∧ (5 : ℚ) ≤ 5) := by
  refine ⟨?_, ?_, by norm_num, by norm_num⟩
  · norm_num [checkValueDifference]
  · norm_num [checkValueAllowed, checkValueDifference]

/-- Claim C4 (amended): for neighbors with distinct DOY, `check_value`
keeps the observation exactly when the interpolation residual lies in the
OPEN interval `(threshold_low, threshold_high)` (a residual equal to either
threshold is masked); in particular, with thresholds `(-20, 20)`, the
middle point of the series `[(t=0,v=10),(t=5,v=100),(t=10,v=12)]` is
masked, while with values `(10,11,12)` all three points remain unmasked. -/
theorem c4_amended :
    (∀ (thresholdLow thresholdHigh : ℚ)
       (previousScene nextScene currentScene : NeighborScene),
      nextScene.doy ≠ previousScene.doy →
      (checkValueAllowed thresholdLow thresholdHigh previousScene nextScene
          currentScene = true ↔
        thresholdLow < checkValueDifference previousScene nextScene currentScene ∧
        checkValueDifference previousScene nextScene currentScene < thresholdHigh)) ∧
    cloudFilterKept (-20) 20 [⟨10, 0, true⟩, ⟨100, 5, true⟩, ⟨12, 10, true⟩] 0 1
      = false ∧
    (cloudFilterKept (-20) 20 [⟨10, 0, true⟩, ⟨11, 5, true⟩, ⟨12, 10, true⟩] 0 0
        = true ∧
     cloudFilterKept (-20) 20 [⟨10, 0, true⟩, ⟨11, 5, true⟩, ⟨12, 10, true⟩] 0 1
        = true ∧
     cloudFilterKept (-20) 20 [⟨10, 0, true⟩, ⟨11, 5, true⟩, ⟨12, 10, true⟩] 0 2
        = true) := by
  refine ⟨?_, ?_, ?_, ?_, ?_⟩
  · intro thresholdLow thresholdHigh previousScene nextScene currentScene hdoy
    simp [checkValueAllowed]
  · norm_num [cloudFilterKept, previousUnmaskedScene, nextUnmaskedScene,
      phenoBuffered, bufferStartScenes, bufferEndScenes,
      getPreviousUnmaskedScene, checkValueAllowed, checkValueDifference,
      List.range_succ, List.foldl, List.getLastD]
  · norm_num [cloudFilterKept, previousUnmaskedScene, nextUnmaskedScene,
      phenoBuffered, bufferStartScenes, bufferEndScenes,
      getPreviousUnmaskedScene, checkValueAllowed, checkValueDifference,
      List.range_succ, List.foldl, List.getLastD]
  · norm_num [cloudFilterKept, previousUnmaskedScene, nextUnmaskedScene,
      phenoBuffered, bufferStartScenes, bufferEndScenes,
      getPreviousUnmaskedScene, checkValueAllowed, checkValueDifference,
      List.range_succ, List.foldl, List.getLastD]
  · norm_num [cloudFilterKept, previousUnmaskedScene, nextUnmaskedScene,
      phenoBuffered, bufferStartScenes, bufferEndScenes,
      getPreviousUnmaskedScene, checkValueAllowed, checkValueDifference,
      List.range_succ, List.foldl, List.getLastD]

/-- Witness for C4 (amended): at the middle point of the first three-point
series, the open-interval characterization is obtained from the theorem at
concrete neighbors `(10 @ DOY 0)` and `(12 @ DOY 10)`. -/
theorem c4_witness :
    checkValueAllowed (-20) 20 ⟨10, 0⟩ ⟨12, 10⟩ ⟨100, 5⟩ = true ↔
      (-20 : ℚ) < checkValueDifference ⟨10, 0⟩ ⟨12, 10⟩ ⟨100, 5⟩ ∧
      checkValueDifference ⟨10, 0⟩ ⟨12, 10⟩ ⟨100, 5⟩ < 20 :=
  c4_amended.1 (-20) 20 ⟨10, 0⟩ ⟨12, 10⟩ ⟨100, 5⟩ (by norm_num)

/-- Claim C10: with sentinel neighbors on both sides (previous value 0 at
DOY 0, next value 0 at DOY 365), `check_value` computes slope 0 and
expected value 0, so the residual is the observation's own value and the
observation is kept exactly when that value lies strictly inside
`(threshold_low, threshold_high)` - it is not unconditionally kept; the
same holds through the full filter for a singleton series, whose only
observation has sentinel neighbors on both sides. -/
theorem c10_no_neighbor (thresholdLow thresholdHigh v d : ℚ) :
    checkValueDifference ⟨0, 0⟩ ⟨0, 365⟩ ⟨v, d⟩ = v ∧
    (checkValueAllowed thresholdLow thresholdHigh ⟨0, 0⟩ ⟨0, 365⟩ ⟨v, d⟩ = true ↔
      thresholdLow < v ∧ v < thresholdHigh) ∧
    (cloudFilterKept thresholdLow thresholdHigh [⟨v, d, true⟩] 0 0 = true ↔
      thresholdLow < v ∧ v < thresholdHigh) := by
  have hdiff : checkValueDifference ⟨0, 0⟩ ⟨0, 365⟩ ⟨v, d⟩ = v := by
    simp [checkValueDifference]
  refine ⟨hdiff, ?_, ?_⟩
  · simp [checkValueAllowed, hdiff]
  · simp [cloudFilterKept, previousUnmaskedScene, nextUnmaskedScene,
      phenoBuffered, bufferStartScenes, bufferEndScenes,
      getPreviousUnmaskedScene, checkValueAllowed, checkValueDifference,
      List.range_succ, List.foldl, List.getLastD]

/-- Witness for C10: a value of 1/2 with thresholds `(-1, 1)` is kept both
at the `check_value` level and through the full filter on a singleton
series. -/
theorem c10_witness :
    checkValueDifference ⟨0, 0⟩ ⟨0, 365⟩ ⟨1/2, 50⟩ = 1/2 ∧
    (checkValueAllowed (-1) 1 ⟨0, 0⟩ ⟨0, 365⟩ ⟨1/2, 50⟩ = true ↔
      (-1 : ℚ) < 1/2 ∧ (1 : ℚ)/2 < 1) ∧
    (cloudFilterKept (-1) 1 [⟨1/2, 50, true⟩] 0 0 = true ↔
      (-1 : ℚ) < 1/2 ∧ (1 : ℚ)/2 < 1) :=
  c10_no_neighbor (-1) 1 (1/2) 50
